import Mathlib

/-!
Verification of the redMaGiC calibration fitter (redmagic_calibrate.py).

Shallow embedding of `RedmagicParameterFitter` and the relevant fragments of
`RedmagicCalibrator.run`.  Floating-point values are modelled as rationals
(`ℚ`); index-aligned per-galaxy numpy arrays become a single `List` of galaxy
records; numpy fancy indexing with a possibly-`None` index set is modelled by
`NpIdxed`; a Python `raise` becomes an `Except`-style error value.

External collaborators (the cubic spline evaluator `CubicSpline` from
`redmapper.utilities`, `np.log10`, `np.sqrt`, `scipy.optimize.fmin`,
`MedZFitter`, and the red-sequence `mstar(z)` function) are taken as explicit
function parameters: every theorem below holds for an arbitrary choice of
these functions, so no property of the calibration code proved here depends
on their internals.
-/

/-- One per-galaxy record: the index-aligned arrays `z`, `z_err`, `chisq`,
`mstar`, `zcal`, `zcal_err`, `refmag`, `randomn`, `zmax` of the fitter, plus
the mutable corrected arrays `_zredmagic` (`zred`) and `_zredmagic_e`
(`zrede`). -/
structure Galaxy where
  z : ℚ
  zerr : ℚ
  chisq : ℚ
  mstar : ℚ
  zcal : ℚ
  zcalerr : ℚ
  refmag : ℚ
  randomn : ℚ
  zmax : ℚ
  zred : ℚ
  zrede : ℚ
  deriving Repr, DecidableEq

/-- Errors a fitter method can raise.  `configError` stands for the
`RuntimeError`s raised by explicit configuration checks; `valueError` for the
`ValueError` numpy raises when a 2-tuple of index arrays is unpacked into one
variable; `indexError` for out-of-bounds numpy indexing. -/
inductive RMErr where
  | configError
  | valueError
  | indexError
  deriving Repr, DecidableEq

/-- State of a `RedmagicParameterFitter`: the spline node grids, the galaxy
arrays, the scalar configuration, the per-bin volumes, and the afterburner
bookkeeping (`ab_use` index set and the `_afterburner` flag). -/
structure RMFitterState where
  nodes : List ℚ
  corrnodes : List ℚ
  gals : List Galaxy
  etamin : ℚ
  n0 : ℚ
  volume : List ℚ
  zrange0 : ℚ
  zrange1 : ℚ
  zbinsize : ℚ
  maxchi : ℚ
  abUse : Option (List ℕ)
  afterburner : Bool
  deriving Repr

/-- Model of `np.clip(x, lo, hi)`. -/
def clipQ (x lo hi : ℚ) : ℚ := min (max x lo) hi

/-- Per-galaxy selection test of the cost function (`__call__`, lines
238–240): chi-square below the spline threshold interpolated at the *raw*
redshift `g.z` and clipped to `[0.1, maxchi]`; refmag below the luminosity
cut `mstar − 2.5·log10(etamin)`; *corrected* redshift `g.zred` below the
galaxy's `zmax`.  `spl nodes pars x` is the external cubic-spline evaluator,
`log10` the external base-10 logarithm. -/
def selPred (spl : List ℚ → List ℚ → ℚ → ℚ) (log10 : ℚ → ℚ)
    (st : RMFitterState) (pars : List ℚ) (g : Galaxy) : Bool :=
  decide (g.chisq < clipQ (spl st.nodes pars g.z) (1/10) st.maxchi) &&
  decide (g.refmag < g.mstar - 5/2 * log10 st.etamin) &&
  decide (g.zred < g.zmax)

/-- Monte-Carlo-sampled redshift of one galaxy (`__call__`, line 236):
`zsamp = randomn * zredmagic_e + zredmagic`. -/
def zsampOf (g : Galaxy) : ℚ := g.randomn * g.zrede + g.zred

/-- Number of bins used by `esutil.stat.histogram(data, min, max, binsize)`:
`int((max − min)/binsize) + 1`. -/
def nbinsOf (lo hi b : ℚ) : ℕ := (⌊(hi - lo) / b⌋).toNat + 1

/-- Model of `esutil.stat.histogram(data, min=lo, max=hi, binsize=b)`:
count per half-open bin `[lo + i·b, lo + (i+1)·b)`, restricted to data in
`[lo, hi]` (esutil drops data above `max`; the bin count is
`int((hi−lo)/b)+1`). -/
def histogramQ (lo hi b : ℚ) (xs : List ℚ) : List ℕ :=
  (List.range (nbinsOf lo hi b)).map fun (i : ℕ) =>
    (xs.filter fun x =>
      decide (lo + (i : ℚ) * b ≤ x) && decide (x < lo + ((i : ℚ) + 1) * b) &&
      decide (x ≤ hi)).length

/-- The density-matching cost function `RedmagicParameterFitter.__call__`
(lines 217–258).  `sqrtQ` is the external `np.sqrt`.  Computes the clipped
chi-square threshold at each galaxy's raw redshift, selects galaxies by
`selPred`, returns the sentinel `1e11` if none survive, and otherwise
histograms the survivors' sampled redshifts over
`[zrange0, zrange1 − 0.0001]` and sums the squared density residuals. -/
def rmCall (spl : List ℚ → List ℚ → ℚ → ℚ) (log10 sqrtQ : ℚ → ℚ)
    (st : RMFitterState) (pars : List ℚ) : ℚ :=
  let gd := st.gals.filter (selPred spl log10 st pars)
  if gd.isEmpty then 100000000000
  else
    let h := histogramQ st.zrange0 (st.zrange1 - 1/10000) st.zbinsize
      (gd.map zsampOf)
    let den := List.zipWith (fun (hcnt : ℕ) (v : ℚ) => (hcnt : ℚ) / v) h st.volume
    let denErr := st.volume.map fun v => sqrtQ (st.n0 * (1/10000) * v) / v
    (List.zipWith (fun d e => ((d - st.n0 * (1/10000)) / e) ^ 2) den denErr).sum

/-- The method `__call__` as a state transformer: the Python method reads the stored
arrays but performs no assignment to `self`, so the post-call state is the
pre-call state. -/
def rmCallSt (spl : List ℚ → List ℚ → ℚ → ℚ) (log10 sqrtQ : ℚ → ℚ)
    (st : RMFitterState) (pars : List ℚ) : ℚ × RMFitterState :=
  (rmCall spl log10 sqrtQ st pars, st)

/-! ### Concrete instantiations used by witnesses -/

/-- A concrete stand-in for the external cubic-spline evaluator. -/
def splC : List ℚ → List ℚ → ℚ → ℚ := fun _ _ _ => 5

/-- A concrete stand-in for `np.log10` (value of `log10 1`). -/
def logC : ℚ → ℚ := fun _ => 0

/-- A concrete stand-in for `np.sqrt` (value of `sqrt 1`). -/
def sqrtC : ℚ → ℚ := fun _ => 1

/-- A galaxy that passes all three cuts under `splC`/`logC`. -/
def gPass : Galaxy :=
  { z := 1/2, zerr := 1/100, chisq := 3, mstar := 18, zcal := -1, zcalerr := -1,
    refmag := 17, randomn := 0, zmax := 1, zred := 1/2, zrede := 1/100 }

/-- A galaxy failing the chi-square cut (`chisq = 30` above the threshold). -/
def gFail : Galaxy := { gPass with chisq := 30 }

/-- A small concrete fitter state with one passing galaxy and two redshift
bins of unit volume. -/
def stBase : RMFitterState :=
  { nodes := [0, 1], corrnodes := [0, 1], gals := [gPass], etamin := 1,
    n0 := 1, volume := [1, 1], zrange0 := 0, zrange1 := 1, zbinsize := 1/2,
    maxchi := 20, abUse := some [0], afterburner := false }

/-- Sum of the zipped density/uncertainty lists as an indexed sum over bins:
the bin-wise algebra of the cost function in closed form. -/
theorem sum_zip_density (c : ℚ) (sq : ℚ → ℚ) :
    ∀ (vol : List ℚ) (f : ℕ → ℕ),
      (List.zipWith (fun d e => ((d - c) / e) ^ 2)
        (List.zipWith (fun (hcnt : ℕ) (v : ℚ) => (hcnt : ℚ) / v)
          ((List.range vol.length).map f) vol)
        (vol.map fun v => sq (c * v) / v)).sum =
      ∑ i in Finset.range vol.length,
        (((f i : ℚ) / vol.getD i 0 - c) /
          (sq (c * vol.getD i 0) / vol.getD i 0)) ^ 2
  | [], _ => by simp
  | v :: vs, f => by
    have ih := sum_zip_density c sq vs fun i => f (i + 1)
    simp only [List.length_cons, List.range_succ_eq_map, List.map_cons,
      List.map_map, List.zipWith_cons_cons, List.sum_cons, Function.comp_def]
    rw [Finset.sum_range_succ']
    simp only [List.getD_cons_zero, List.getD_cons_succ]
    rw [ih]
    ring

/-- C1: cost is the sentinel `1e11` when the selection is empty. -/
theorem rmCall_empty_selection (spl : List ℚ → List ℚ → ℚ → ℚ)
    (log10 sqrtQ : ℚ → ℚ) (st : RMFitterState) (pars : List ℚ)
    (h : ∀ g ∈ st.gals, selPred spl log10 st pars g = false) :
    rmCall spl log10 sqrtQ st pars = 100000000000 := by
  unfold rmCall
  have hfilter : st.gals.filter (selPred spl log10 st pars) = [] :=
    List.filter_eq_nil_iff.mpr fun g hg => by simp [h g hg]
  simp [hfilter]

/-- Witness for C1: with the galaxy `gFail` (chi-square 30 above the clipped
threshold 5) the selection is empty and the cost is exactly `1e11`. -/
theorem rmCall_empty_selection_witness :
    (∀ g ∈ ({ stBase with gals := [gFail] } : RMFitterState).gals,
      selPred splC logC { stBase with gals := [gFail] } [3, 3] g = false) ∧
    rmCall splC logC sqrtC { stBase with gals := [gFail] } [3, 3] = 100000000000 := by
  have h : ∀ g ∈ ({ stBase with gals := [gFail] } : RMFitterState).gals,
      selPred splC logC { stBase with gals := [gFail] } [3, 3] g = false := by
    intro g hg
    rcases List.mem_singleton.mp hg with rfl
    norm_num [selPred, clipQ, splC, logC, stBase, gFail, gPass]
  exact ⟨h, rmCall_empty_selection splC logC sqrtC _ [3, 3] h⟩

/-- C2: in the cost function's selection, the chi-square threshold is the
spline evaluated at the galaxy's *raw* redshift `g.z` (clipped to
`[0.1, maxchi]`), while the `zmax` cut compares the *corrected* redshift
(here set to an arbitrary `w`); this holds for either value of the
afterburner flag. -/
theorem selPred_raw_threshold_corrected_zmax (spl : List ℚ → List ℚ → ℚ → ℚ)
    (log10 : ℚ → ℚ) (st : RMFitterState) (pars : List ℚ) (b : Bool)
    (g : Galaxy) (w : ℚ) :
    selPred spl log10 { st with afterburner := b } pars { g with zred := w } = true ↔
      (g.chisq < clipQ (spl st.nodes pars g.z) (1/10) st.maxchi ∧
       g.refmag < g.mstar - 5/2 * log10 st.etamin ∧
       w < g.zmax) := by
  simp [selPred, and_assoc]

/-- C4: a cost evaluation leaves the fitter state (in particular the stored
random vector `randomn`) unchanged, and a second evaluation at the same
parameters from the post-call state returns the same cost: the objective is a
deterministic, repeatable function of the parameter vector with no fresh
randomness drawn inside an evaluation. -/
theorem rmCallSt_deterministic (spl : List ℚ → List ℚ → ℚ → ℚ)
    (log10 sqrtQ : ℚ → ℚ) (st : RMFitterState) (pars : List ℚ) :
    (rmCallSt spl log10 sqrtQ st pars).2 = st ∧
    (rmCallSt spl log10 sqrtQ (rmCallSt spl log10 sqrtQ st pars).2 pars).1 =
      (rmCallSt spl log10 sqrtQ st pars).1 :=
  ⟨rfl, rfl⟩

/-- A histogram only depends on the multiset of data points. -/
theorem histogramQ_perm {xs ys : List ℚ} (h : xs.Perm ys) (lo hi b : ℚ) :
    histogramQ lo hi b xs = histogramQ lo hi b ys := by
  unfold histogramQ
  refine List.map_congr_left fun i _ => ?_
  exact (h.filter _).length_eq

/-- C8: the cost function is invariant under any joint permutation of the
per-galaxy records (all index-aligned arrays permuted together). -/
theorem rmCall_perm_invariant (spl : List ℚ → List ℚ → ℚ → ℚ)
    (log10 sqrtQ : ℚ → ℚ) (st : RMFitterState) (gals' : List Galaxy)
    (pars : List ℚ) (hp : st.gals.Perm gals') :
    rmCall spl log10 sqrtQ st pars =
      rmCall spl log10 sqrtQ { st with gals := gals' } pars := by
  have hP : selPred spl log10 { st with gals := gals' } pars =
      selPred spl log10 st pars := rfl
  have hfp : (st.gals.filter (selPred spl log10 st pars)).Perm
      (gals'.filter (selPred spl log10 st pars)) := hp.filter _
  have hhist := histogramQ_perm (hfp.map zsampOf) st.zrange0
    (st.zrange1 - 1/10000) st.zbinsize
  have hemp : (st.gals.filter (selPred spl log10 st pars)).isEmpty =
      (gals'.filter (selPred spl log10 st pars)).isEmpty := by
    rw [Bool.eq_iff_iff, List.isEmpty_iff_length_eq_zero,
      List.isEmpty_iff_length_eq_zero, hfp.length_eq]
  simp only [rmCall, hP, hemp, hhist]

/-- Witness for C8: the two-galaxy state and its swap give the same cost. -/
theorem rmCall_perm_invariant_witness :
    ([gPass, gFail].Perm [gFail, gPass]) ∧
    rmCall splC logC sqrtC { stBase with gals := [gPass, gFail] } [3, 3] =
      rmCall splC logC sqrtC { stBase with gals := [gFail, gPass] } [3, 3] :=
  ⟨List.Perm.swap gFail gPass [],
   rmCall_perm_invariant splC logC sqrtC { stBase with gals := [gPass, gFail] }
     [gFail, gPass] [3, 3] (List.Perm.swap gFail gPass [])⟩

/-- C3: when the selection is nonempty (and the volume table has one entry
per histogram bin, as the orchestrator guarantees), the cost equals the sum
over redshift bins of `((count/volume − n0·1e-4) / (sqrt(n0·1e-4·volume) /
volume))²`, where `count` is the number of surviving galaxies whose sampled
redshift `randomn·zredmagic_e + zredmagic` falls in the bin
`[zrange0 + i·zbinsize, zrange0 + (i+1)·zbinsize)` (capped at
`zrange1 − 0.0001`, the epsilon-reduced upper edge). -/
theorem rmCall_cost_formula (spl : List ℚ → List ℚ → ℚ → ℚ)
    (log10 sqrtQ : ℚ → ℚ) (st : RMFitterState) (pars : List ℚ)
    (hne : st.gals.filter (selPred spl log10 st pars) ≠ [])
    (hv : st.volume.length =
      nbinsOf st.zrange0 (st.zrange1 - 1/10000) st.zbinsize) :
    rmCall spl log10 sqrtQ st pars =
      ∑ i in Finset.range st.volume.length,
        (((((st.gals.filter (selPred spl log10 st pars)).map zsampOf).filter
              (fun x =>
                decide (st.zrange0 + i * st.zbinsize ≤ x) &&
                decide (x < st.zrange0 + (i + 1) * st.zbinsize) &&
                decide (x ≤ st.zrange1 - 1/10000))).length /
            st.volume.getD i 0 - st.n0 * (1/10000)) /
          (sqrtQ (st.n0 * (1/10000) * st.volume.getD i 0) /
            st.volume.getD i 0)) ^ 2 := by
  have hne' : (st.gals.filter (selPred spl log10 st pars)).isEmpty = false := by
    rw [List.isEmpty_eq_false_iff_exists_mem]
    rcases List.exists_mem_of_ne_nil _ hne with ⟨g, hg⟩
    exact ⟨g, hg⟩
  unfold rmCall
  simp only [hne', Bool.false_eq_true, if_false, histogramQ, ← hv]
  exact sum_zip_density (st.n0 * (1/10000)) sqrtQ st.volume _

/-- Witness for C3: on the one-passing-galaxy state `stBase` the selection is
nonempty, the volume table matches the bin count, and the cost equals the
per-bin density-residual sum. -/
theorem rmCall_cost_formula_witness :
    (stBase.gals.filter (selPred splC logC stBase [3, 3]) ≠ []) ∧
    (stBase.volume.length =
      nbinsOf stBase.zrange0 (stBase.zrange1 - 1/10000) stBase.zbinsize) ∧
    rmCall splC logC sqrtC stBase [3, 3] =
      ∑ i in Finset.range stBase.volume.length,
        (((((stBase.gals.filter (selPred splC logC stBase [3, 3])).map
              zsampOf).filter
              (fun x =>
                decide (stBase.zrange0 + i * stBase.zbinsize ≤ x) &&
                decide (x < stBase.zrange0 + (i + 1) * stBase.zbinsize) &&
                decide (x ≤ stBase.zrange1 - 1/10000))).length /
            stBase.volume.getD i 0 - stBase.n0 * (1/10000)) /
          (sqrtC (stBase.n0 * (1/10000) * stBase.volume.getD i 0) /
            stBase.volume.getD i 0)) ^ 2 := by
  have h1 : stBase.gals.filter (selPred splC logC stBase [3, 3]) ≠ [] := by
    norm_num [stBase, gPass, selPred, clipQ, splC, logC, List.filter_cons]
  have h2 : stBase.volume.length =
      nbinsOf stBase.zrange0 (stBase.zrange1 - 1/10000) stBase.zbinsize := by
    norm_num [stBase, nbinsOf]
  exact ⟨h1, h2, rmCall_cost_formula splC logC sqrtC stBase [3, 3] h1 h2⟩

/-! ### `RedmagicParameterFitter.fit` (lines 125–169) -/

/-- Tail of `fit` shared by both branches (lines 164–167): recompute `mstar`
at the (possibly corrected) redshifts and run the derivative-free minimizer
(`scipy.optimize.fmin`, abstracted as `fmin`) on the cost function. -/
def rmFitFinish (mstarFn : ℚ → ℚ) (fmin : (List ℚ → ℚ) → List ℚ → List ℚ)
    (spl : List ℚ → List ℚ → ℚ → ℚ) (log10 sqrtQ : ℚ → ℚ)
    (st : RMFitterState) (p0 : List ℚ) :
    RMFitterState × Except RMErr (List ℚ) :=
  let st' := { st with gals := st.gals.map fun g => { g with mstar := mstarFn g.zred } }
  (st', .ok (fmin (rmCall spl log10 sqrtQ st') p0))

/-- The method `RedmagicParameterFitter.fit`: raises when the afterburner is requested
without an `ab_use` index set; sets the `_afterburner` flag; in afterburner
mode requires bias and eratio parameters and recomputes the corrected
redshift/uncertainty arrays from the correction splines, otherwise resets
them to the raw values; recomputes `mstar`; then minimizes the cost function
from `p0`.  A Python `raise` leaves the partially-updated object behind, so
the state is returned alongside the `Except` result. -/
def rmFit (mstarFn : ℚ → ℚ) (fmin : (List ℚ → ℚ) → List ℚ → List ℚ)
    (spl : List ℚ → List ℚ → ℚ → ℚ) (log10 sqrtQ : ℚ → ℚ)
    (st : RMFitterState) (p0 : List ℚ)
    (biaspars eratiopars : Option (List ℚ)) (afterburner : Bool) :
    RMFitterState × Except RMErr (List ℚ) :=
  if st.abUse.isNone && afterburner then (st, .error .configError)
  else
    let st1 := { st with afterburner := afterburner }
    if afterburner then
      match biaspars, eratiopars with
      | some bp, some ep =>
        let st2 := { st1 with gals := st1.gals.map fun g =>
          { g with zred := g.z - spl st1.corrnodes bp g.z,
                   zrede := g.zerr * spl st1.corrnodes ep g.z } }
        rmFitFinish mstarFn fmin spl log10 sqrtQ st2 p0
      | _, _ => (st1, .error .configError)
    else
      let st2 := { st1 with gals := st1.gals.map fun g =>
        { g with zred := g.z, zrede := g.zerr } }
      rmFitFinish mstarFn fmin spl log10 sqrtQ st2 p0

/-- C5: `fit` with `afterburner = False` gives the same result for any
supplied bias/eratio parameters as for none at all, and leaves a state whose
corrected redshift equals the raw `z`, corrected error equals the raw
`z_err`, and `mstar` is recomputed at the raw redshifts — for *every*
starting state, in particular one left behind by a prior
`afterburner = True` fit. -/
theorem rmFit_no_afterburner_resets (mstarFn : ℚ → ℚ)
    (fmin : (List ℚ → ℚ) → List ℚ → List ℚ) (spl : List ℚ → List ℚ → ℚ → ℚ)
    (log10 sqrtQ : ℚ → ℚ) (st : RMFitterState) (p0 : List ℚ)
    (biaspars eratiopars : Option (List ℚ)) :
    rmFit mstarFn fmin spl log10 sqrtQ st p0 biaspars eratiopars false =
      rmFit mstarFn fmin spl log10 sqrtQ st p0 none none false ∧
    (rmFit mstarFn fmin spl log10 sqrtQ st p0 biaspars eratiopars false).1.gals =
      st.gals.map (fun g =>
        { g with zred := g.z, zrede := g.zerr, mstar := mstarFn g.z }) := by
  refine ⟨rfl, ?_⟩
  simp [rmFit, rmFitFinish, List.map_map, Function.comp_def]

/-- C10: `fit` with `afterburner = True` and a missing `biaspars` or
`eratiopars` returns the configuration error, and on this error path the
per-galaxy arrays (in particular `zredmagic`/`zredmagic_e`) are unchanged. -/
theorem rmFit_afterburner_missing_pars (mstarFn : ℚ → ℚ)
    (fmin : (List ℚ → ℚ) → List ℚ → List ℚ) (spl : List ℚ → List ℚ → ℚ → ℚ)
    (log10 sqrtQ : ℚ → ℚ) (st : RMFitterState) (p0 : List ℚ)
    (biaspars eratiopars : Option (List ℚ))
    (h : biaspars = none ∨ eratiopars = none) :
    (rmFit mstarFn fmin spl log10 sqrtQ st p0 biaspars eratiopars true).2 =
      .error .configError ∧
    (rmFit mstarFn fmin spl log10 sqrtQ st p0 biaspars eratiopars true).1.gals =
      st.gals := by
  rcases h with h | h <;> subst h <;>
    cases habu : st.abUse <;>
    first
      | (cases biaspars <;> simp [rmFit, habu])
      | (cases eratiopars <;> simp [rmFit, habu])

/-- A concrete stand-in for the external red-sequence `mstar(z)` function. -/
def mstarC : ℚ → ℚ := fun _ => 18

/-- A concrete stand-in for `scipy.optimize.fmin` (returns its start). -/
def fminC : (List ℚ → ℚ) → List ℚ → List ℚ := fun _ p0 => p0

/-- Witness for C10: with `biaspars = none` (and eratio parameters supplied)
an afterburner fit errors out with the galaxy arrays untouched. -/
theorem rmFit_afterburner_missing_pars_witness :
    ((none : Option (List ℚ)) = none ∨ (some [0, 0] : Option (List ℚ)) = none) ∧
    (rmFit mstarC fminC splC logC sqrtC stBase [3, 3] none (some [0, 0]) true).2 =
      .error .configError ∧
    (rmFit mstarC fminC splC logC sqrtC stBase [3, 3] none (some [0, 0]) true).1.gals =
      stBase.gals :=
  ⟨Or.inl rfl,
   rmFit_afterburner_missing_pars mstarC fminC splC logC sqrtC stBase [3, 3]
     none (some [0, 0]) (Or.inl rfl)⟩

/-! ### `RedmagicParameterFitter.fit_bias_eratio` (lines 171–215)

The method indexes every per-galaxy array with `self._ab_use`.  When
`ab_use` is an integer index array this selects entries; when `ab_use` is
`None`, numpy's `arr[None]` instead inserts a new axis and yields a 1×n
two-dimensional view.  `NpIdxed` records which of the two happened. -/

/-- Result of `arr[ab_use]`: a one-dimensional selection (`vec`) or the 1×n
two-dimensional view produced by `arr[None]` (`mat`, holding the single
row). -/
inductive NpIdxed (α : Type) where
  | vec : List α → NpIdxed α
  | mat : List α → NpIdxed α
  deriving Repr, DecidableEq

/-- numpy fancy indexing `arr[idx]` with the stored `ab_use`. -/
def npIndex (xs : List ℚ) : Option (List ℕ) → NpIdxed ℚ
  | some idx => .vec (idx.map fun i => xs.getD i 0)
  | none => .mat xs

/-- Elementwise combination of two views (numpy broadcasting keeps the 1×n
shape whenever either operand is two-dimensional). -/
def npZipW {α β : Type} (f : α → α → β) : NpIdxed α → NpIdxed α → NpIdxed β
  | .vec a, .vec b => .vec (List.zipWith f a b)
  | .vec a, .mat b => .mat (List.zipWith f a b)
  | .mat a, .vec b => .mat (List.zipWith f a b)
  | .mat a, .mat b => .mat (List.zipWith f a b)

/-- Elementwise map (comparison of a view against a broadcast scalar). -/
def npMap {α β : Type} (f : α → β) : NpIdxed α → NpIdxed β
  | .vec a => .vec (a.map f)
  | .mat a => .mat (a.map f)

/-- Line 204, `ab_gd, = np.where(ab_mask)`: on a one-dimensional mask,
`np.where` returns a 1-tuple and the single-variable unpacking succeeds with
the indices of the `true` entries; on a two-dimensional mask it returns a
2-tuple of row/column indices and the unpacking raises a `ValueError`. -/
def npWhereUnpack : NpIdxed Bool → Except RMErr (List ℕ)
  | .vec bs => .ok ((List.range bs.length).filter fun i => bs.getD i false)
  | .mat _ => .error .valueError

/-- The method `RedmagicParameterFitter.fit_bias_eratio`: reconstruct the clipped
chi-square threshold at the raw redshifts, build the held-out selection mask
(per-galaxy `zmax` branch when the stored `zmax` has more than one entry),
unpack `np.where`, and fit the bias and error-ratio corrections with the
external robust median fitter `medz` (`MedZFitter(corrnodes, x, y).fit(p0,
min_val, max_val)`), with bias clipped to `[-0.1, 0.1]`, eratio to
`[0.5, 1.5]`, and `y = 1.4826·|z − zcal|/z_err`. -/
def fitBiasEratio (medz : List ℚ → List ℚ → List ℚ → List ℚ → ℚ → ℚ → List ℚ)
    (spl : List ℚ → List ℚ → ℚ → ℚ) (log10 : ℚ → ℚ)
    (st : RMFitterState) (cval p0bias p0eratio : List ℚ) :
    Except RMErr (List ℚ × List ℚ) :=
  let chi2max := st.gals.map fun g => clipQ (spl st.nodes cval g.z) (1/10) st.maxchi
  let chisqArr := st.gals.map Galaxy.chisq
  let refmagArr := st.gals.map Galaxy.refmag
  let mstarArr := st.gals.map Galaxy.mstar
  let zredArr := st.gals.map Galaxy.zred
  let zmaxArr := st.gals.map Galaxy.zmax
  let zArr := st.gals.map Galaxy.z
  let zerrArr := st.gals.map Galaxy.zerr
  let zcalArr := st.gals.map Galaxy.zcal
  let mask0 := npZipW (fun c t => decide (c < t))
    (npIndex chisqArr st.abUse) (npIndex chi2max st.abUse)
  let mask1 := npZipW (fun r m => decide (r < m - 5/2 * log10 st.etamin))
    (npIndex refmagArr st.abUse) (npIndex mstarArr st.abUse)
  let abMask0 := npZipW (· && ·) mask0 mask1
  let abMask :=
    if zmaxArr.length > 1 then
      npZipW (· && ·) abMask0
        (npZipW (fun zr zm => decide (zr < zm))
          (npIndex zredArr st.abUse) (npIndex zmaxArr st.abUse))
    else
      npZipW (· && ·) abMask0
        (npMap (fun zr => decide (zr < zmaxArr.getD 0 0))
          (npIndex zredArr st.abUse))
  match npWhereUnpack abMask with
  | .error e => .error e
  | .ok abGd0 =>
    -- `ab_gd = self._ab_use[ab_gd]`: only reached when `ab_use` is an
    -- index array, in which case `getD []` returns it.
    let abUseList := st.abUse.getD []
    let abGd := abGd0.map fun i => abUseList.getD i 0
    let xg := abGd.map fun i => zArr.getD i 0
    let ybias := abGd.map fun i => zArr.getD i 0 - zcalArr.getD i 0
    let parsBias := medz st.corrnodes xg ybias p0bias (-(1/10)) (1/10)
    let yeratio := abGd.map fun i =>
      14826/10000 * |zArr.getD i 0 - zcalArr.getD i 0| / zerrArr.getD i 0
    let parsEratio := medz st.corrnodes xg yeratio p0eratio (1/2) (3/2)
    .ok (parsBias, parsEratio)

/-- Amended C6: with no `ab_use` index set, `fit_bias_eratio` does *not*
raise the configuration error — `arr[None]` indexing yields a 1×n mask and
the `np.where` unpacking fails with a `ValueError`, for every state and
every choice of the external fitters. -/
theorem fitBiasEratio_abUse_none_valueError
    (medz : List ℚ → List ℚ → List ℚ → List ℚ → ℚ → ℚ → List ℚ)
    (spl : List ℚ → List ℚ → ℚ → ℚ) (log10 : ℚ → ℚ)
    (st : RMFitterState) (cval p0bias p0eratio : List ℚ)
    (h : st.abUse = none) :
    fitBiasEratio medz spl log10 st cval p0bias p0eratio =
      .error .valueError := by
  unfold fitBiasEratio
  rw [h]
  simp only [npIndex, npZipW, npMap]
  rw [apply_ite npWhereUnpack]
  simp only [npWhereUnpack, ite_self]

/-- Witness for the amended C6 at a concrete state with `ab_use = None`. -/
theorem fitBiasEratio_abUse_none_valueError_witness :
    (({ stBase with abUse := none } : RMFitterState).abUse = none) ∧
    fitBiasEratio (fun _ _ _ p _ _ => p) splC logC
      { stBase with abUse := none } [3, 3] [0, 0] [1, 1] =
      .error .valueError :=
  ⟨rfl,
   fitBiasEratio_abUse_none_valueError (fun _ _ _ p _ _ => p) splC logC
     { stBase with abUse := none } [3, 3] [0, 0] [1, 1] rfl⟩

/-- Counterexample to C6 as stated: at a concrete fitter state constructed
without a held-out index set, `fit_bias_eratio` fails with the unpacking
`ValueError`, which is not the configuration error that `fit` with
`afterburner=True` raises. -/
theorem fitBiasEratio_abUse_none_not_configError :
    fitBiasEratio (fun _ _ _ p _ _ => p) splC logC
      { stBase with abUse := none } [3, 3] [0, 0] [1, 1] =
      .error .valueError ∧
    (Except.error RMErr.valueError ≠
      (Except.error RMErr.configError : Except RMErr (List ℚ × List ℚ))) := by
  constructor
  · rfl
  · simp

/-! ### `RedmagicCalibrator.run` fragments: prefilter (lines 365–370), node
windows and initial-guess quantile search (lines 534–551) -/

/-- Orchestrator-level galaxy record: the fields used by the prefilter and
the quantile search (`zuse`, `chisq`, `refmag` and the precomputed
`mstar_init`). -/
structure CalGal where
  zuse : ℚ
  chisq : ℚ
  refmag : ℚ
  mstarInit : ℚ
  deriving Repr, DecidableEq

/-- The prefilter selection (line 365–367): redshift inside the cushioned
range, chi-square below the configured cut, refmag above the minimum
luminosity cut. -/
def prefilterUse (log10 : ℚ → ℚ) (gals : List CalGal)
    (cutlo cuthi chisqcut minlstar : ℚ) : List CalGal :=
  gals.filter fun g =>
    decide (g.zuse > cutlo) && decide (g.zuse < cuthi) &&
    decide (g.chisq < chisqcut) &&
    decide (g.refmag < g.mstarInit - 5/2 * log10 minlstar)

/-- Lines 365–370: `use, = np.where(...)`; if nothing survives, raise the
configuration `RuntimeError`, else continue with the survivors. -/
def prefilterCheck (log10 : ℚ → ℚ) (gals : List CalGal)
    (cutlo cuthi chisqcut minlstar : ℚ) : Except RMErr (List CalGal) :=
  let use := prefilterUse log10 gals cutlo cuthi chisqcut minlstar
  if use.length = 0 then .error .configError else .ok use

/-- Per-node redshift window of the initial-guess loop (lines 534–542):
symmetric half-bin window by default, overridden to a one-bin one-sided
window at the first (`j = 0`) and last (`j = nodes.size − 1`) node. -/
def nodeWindow (nodes : List ℚ) (zbinsize : ℚ) (j : ℕ) : ℚ × ℚ :=
  if j = 0 then (nodes.getD j 0, nodes.getD j 0 + zbinsize)
  else if j = nodes.length - 1 then (nodes.getD j 0 - zbinsize, nodes.getD j 0)
  else (nodes.getD j 0 - zbinsize / 2, nodes.getD j 0 + zbinsize / 2)

/-- Galaxies of one node's local window (line 545–546). -/
def windowGals (w0 w1 : ℚ) (gals : List CalGal) : List CalGal :=
  gals.filter fun g => decide (g.zuse > w0) && decide (g.zuse < w1)

/-- Model of `ind = np.searchsorted(test_den, n0*1e-4)` where
`test_den = np.arange(u.size)/test_vol` (lines 549–550): the leftmost
insertion index into the ascending `test_den`, i.e. the number of entries
strictly below the target. -/
def guessIndex (w0 w1 testVol target : ℚ) (gals : List CalGal) : ℕ :=
  let u := windowGals w0 w1 gals
  (((List.range u.length).map fun (i : ℕ) => (i : ℚ) / testVol).filter
    fun d => decide (d < target)).length

/-- One node of the initial-guess quantile search (lines 545–551): sort the
window's chi-square values ascending (`st = np.argsort(...)`;
`chisq[u[st[ind]]]` is the `ind`-th smallest chi-square) and index with
`ind`; numpy raises an `IndexError` when `ind` is out of range — there is no
bounds check in the source. -/
def nodeInitialGuess (w0 w1 testVol target : ℚ) (gals : List CalGal) :
    Except RMErr ℚ :=
  let u := windowGals w0 w1 gals
  let sortedChisq := (u.map CalGal.chisq).mergeSort fun a b => decide (a ≤ b)
  let ind := guessIndex w0 w1 testVol target gals
  if hlt : ind < sortedChisq.length then .ok (sortedChisq.get ⟨ind, hlt⟩)
  else .error .indexError

/-- C9: the first node's window is `[nodes[0], nodes[0] + zbinsize]`, the
last node's is `[nodes[last] − zbinsize, nodes[last]]`, and every interior
node's window is the symmetric `[nodes[j] − zbinsize/2, nodes[j] +
zbinsize/2]` (stated for grids with at least two nodes, where first and
last are distinct). -/
theorem nodeWindow_edges (nodes : List ℚ) (b : ℚ) (h2 : 2 ≤ nodes.length) :
    nodeWindow nodes b 0 = (nodes.getD 0 0, nodes.getD 0 0 + b) ∧
    nodeWindow nodes b (nodes.length - 1) =
      (nodes.getD (nodes.length - 1) 0 - b, nodes.getD (nodes.length - 1) 0) ∧
    ∀ j, 0 < j → j < nodes.length - 1 →
      nodeWindow nodes b j =
        (nodes.getD j 0 - b / 2, nodes.getD j 0 + b / 2) := by
  refine ⟨by simp [nodeWindow], ?_, ?_⟩
  · have hne : nodes.length - 1 ≠ 0 := by omega
    simp [nodeWindow, hne]
  · intro j hj0 hjlast
    have h1 : j ≠ 0 := by omega
    have h2 : j ≠ nodes.length - 1 := by omega
    simp [nodeWindow, h1, h2]

/-- Witness for C9 on the 3-node grid `[0, 1/2, 1]` with bin size `1/10`. -/
theorem nodeWindow_edges_witness :
    (2 ≤ ([0, 1/2, 1] : List ℚ).length) ∧
    (nodeWindow [0, 1/2, 1] (1/10) 0 =
       (([0, 1/2, 1] : List ℚ).getD 0 0, ([0, 1/2, 1] : List ℚ).getD 0 0 + 1/10) ∧
     nodeWindow [0, 1/2, 1] (1/10) (([0, 1/2, 1] : List ℚ).length - 1) =
       (([0, 1/2, 1] : List ℚ).getD (([0, 1/2, 1] : List ℚ).length - 1) 0 - 1/10,
        ([0, 1/2, 1] : List ℚ).getD (([0, 1/2, 1] : List ℚ).length - 1) 0) ∧
     ∀ j, 0 < j → j < ([0, 1/2, 1] : List ℚ).length - 1 →
       nodeWindow [0, 1/2, 1] (1/10) j =
         (([0, 1/2, 1] : List ℚ).getD j 0 - 1/10/2,
          ([0, 1/2, 1] : List ℚ).getD j 0 + 1/10/2)) :=
  ⟨by norm_num, nodeWindow_edges [0, 1/2, 1] (1/10) (by norm_num)⟩

/-- A galaxy outside both the cushioned prefilter range `(1, 2)` and the
node window `(0, 1/2)` used in the C7 witness and counterexample. -/
def gOut : CalGal := { zuse := 9/10, chisq := 1, refmag := 17, mstarInit := 18 }

/-- Amended C7: an empty prefilter aborts with the configuration error
(line 369–370), but a node window with no galaxies — or too few to reach the
target density, i.e. with the searchsorted index at or past the window's
galaxy count — makes the quantile search fail with an out-of-bounds
`IndexError` at `u[st[ind]]`, not a configuration error. -/
theorem calibration_abort_behavior (log10 : ℚ → ℚ) (gals gals2 : List CalGal)
    (cutlo cuthi chisqcut minlstar w0 w1 testVol target : ℚ)
    (hpre : prefilterUse log10 gals cutlo cuthi chisqcut minlstar = [])
    (hq : (windowGals w0 w1 gals2).length ≤ guessIndex w0 w1 testVol target gals2) :
    prefilterCheck log10 gals cutlo cuthi chisqcut minlstar =
      .error .configError ∧
    nodeInitialGuess w0 w1 testVol target gals2 = .error .indexError := by
  constructor
  · unfold prefilterCheck
    simp [hpre]
  · have hnlt : ¬ (guessIndex w0 w1 testVol target gals2 <
        (((windowGals w0 w1 gals2).map CalGal.chisq).mergeSort
          fun a b => decide (a ≤ b)).length) := by
      rw [List.length_mergeSort, List.length_map]
      omega
    simp only [nodeInitialGuess]
    rw [dif_neg hnlt]

/-- Witness for the amended C7: on `[gOut]` the prefilter with lower cut 1
is empty, the `(0, 1/2)` node window is empty, and the two abort behaviors
are as amended. -/
theorem calibration_abort_behavior_witness :
    (prefilterUse logC [gOut] 1 2 20 1 = []) ∧
    ((windowGals 0 (1/2) [gOut]).length ≤
      guessIndex 0 (1/2) 1 (1/10000) [gOut]) ∧
    (prefilterCheck logC [gOut] 1 2 20 1 = .error .configError ∧
     nodeInitialGuess 0 (1/2) 1 (1/10000) [gOut] = .error .indexError) := by
  have h1 : prefilterUse logC [gOut] 1 2 20 1 = [] := by
    norm_num [prefilterUse, gOut, logC, List.filter_cons]
  have h2 : (windowGals 0 (1/2) [gOut]).length ≤
      guessIndex 0 (1/2) 1 (1/10000) [gOut] := by
    norm_num [windowGals, guessIndex, gOut, List.filter_cons]
  exact ⟨h1, h2, calibration_abort_behavior logC [gOut] [gOut] 1 2 20 1 0
    (1/2) 1 (1/10000) h1 h2⟩

/-- Counterexample to C7 as stated: with the single galaxy `gOut` outside
the `(0, 1/2)` node window, the initial-guess quantile search fails with the
out-of-bounds `IndexError` — not with the fatal configuration error the
claim asserts. -/
theorem nodeInitialGuess_empty_window_not_configError :
    nodeInitialGuess 0 (1/2) 1 (1/10000) [gOut] = .error .indexError ∧
    (Except.error RMErr.indexError ≠
      (Except.error RMErr.configError : Except RMErr ℚ)) := by
  constructor
  · norm_num [nodeInitialGuess, windowGals, guessIndex, gOut, List.filter_cons]
  · simp
